import Mathlib

/-!
Shallow embedding of the appointment-booking core of the ruralDoc backend
(`src/models/Appointment.cpp`, `src/models/Clinic.cpp`, and the conflict-check
declared in `include/services/BookingService.h` / `include/database/AppointmentRepository.h`),
together with theorems settling the specified properties.

Modelling conventions:
- `std::chrono::system_clock::time_point` values are modelled as `Int` (seconds
  since the epoch).  `std::chrono::duration_cast` to minutes or hours truncates
  toward zero, which is exactly `Int.tdiv` by 60 resp. 3600.
- The current wall-clock time (`std::chrono::system_clock::now()`) is passed as
  an explicit `now : Int` argument to every operation that reads it.
- Monetary `double` fields (`amount`, `refund_amount`, `consultation_fee`) are
  modelled as exact `Int` values: the embedded operations only store and compare
  them, never perform floating-point arithmetic on them.
- `std::localtime` decomposition of a time point (used by `Clinic::isOpenAt`) is
  modelled by a `LocalTime` record carrying the weekday name and the zero-padded
  "HH:MM" time-of-day string that the C++ code formats; `std::string` comparison
  on such ASCII strings coincides with Lean `String` order.
-/

namespace RuralDoc

/-- `enum class AppointmentStatus` (include/models/Appointment.h). -/
inductive AppointmentStatus where
  | PENDING
  | CONFIRMED
  | IN_PROGRESS
  | COMPLETED
  | CANCELLED
  | NO_SHOW
  | RESCHEDULED
deriving DecidableEq

/-- `enum class AppointmentType` (include/models/Appointment.h). -/
inductive AppointmentType where
  | ONLINE
  | OFFLINE
deriving DecidableEq

/-- `enum class PaymentStatus` (include/models/Appointment.h). -/
inductive PaymentStatus where
  | PENDING
  | PAID
  | FAILED
  | REFUNDED
  | PARTIALLY_REFUNDED
deriving DecidableEq

/-- `enum class CancellationReason` (include/models/Appointment.h). -/
inductive CancellationReason where
  | PATIENT_REQUEST
  | DOCTOR_UNAVAILABLE
  | EMERGENCY
  | TECHNICAL_ISSUE
  | WEATHER
  | OTHER
deriving DecidableEq

/-- `struct PaymentInfo` (include/models/Appointment.h). -/
structure PaymentInfo where
  payment_id : String
  order_id : String
  transaction_id : String
  amount : Int
  currency : String
  status : PaymentStatus
  payment_method : String
  paid_at : Int
  razorpay_signature : String
deriving DecidableEq

/-- `struct CancellationInfo` (include/models/Appointment.h). -/
structure CancellationInfo where
  reason : CancellationReason
  description : String
  cancelled_at : Int
  cancelled_by_user_id : String
  refund_amount : Int
  refund_id : String
  is_refund_processed : Bool
deriving DecidableEq

/-- `struct ConsultationInfo` (include/models/Appointment.h). -/
structure ConsultationInfo where
  video_call_link : String
  meeting_id : String
  room_password : String
  call_started_at : Int
  call_ended_at : Int
  duration_minutes : Int
  recording_url : String
  call_notes : String
deriving DecidableEq

/-- `class Appointment` data members (include/models/Appointment.h), including the
`BaseEntity` fields it inherits. -/
structure Appointment where
  id : String
  created_at : Int
  updated_at : Int
  is_deleted : Bool
  user_id : String
  doctor_id : String
  clinic_id : String
  appointment_date : Int
  start_time : Int
  end_time : Int
  type : AppointmentType
  status : AppointmentStatus
  symptoms : String
  notes : String
  is_emergency : Bool
  patient_age : String
  patient_gender : String
  consultation_fee : Int
  payment_info : PaymentInfo
  confirmation_code : String
  booked_at : Int
  confirmed_at : Int
  consultation_info : ConsultationInfo
  cancellation_info : CancellationInfo
  prescription_id : String
  follow_up_date : Int
  follow_up_notes : String
deriving DecidableEq

/-- `BaseEntity::updateTimestamp()`: sets `updated_at_` to the current time. -/
def updateTimestamp (now : Int) (a : Appointment) : Appointment :=
  { a with updated_at := now }

/-- `Appointment::confirmAppointment()` (src/models/Appointment.cpp:19-23):
unconditionally sets status to CONFIRMED and records `confirmed_at_ = now`. -/
def confirmAppointment (now : Int) (a : Appointment) : Appointment :=
  updateTimestamp now { a with status := .CONFIRMED, confirmed_at := now }

/-- `Appointment::startConsultation()` (src/models/Appointment.cpp:25-29):
unconditionally sets status to IN_PROGRESS and records the call start. -/
def startConsultation (now : Int) (a : Appointment) : Appointment :=
  updateTimestamp now
    { a with status := .IN_PROGRESS,
             consultation_info := { a.consultation_info with call_started_at := now } }

/-- `Appointment::cancelAppointment(reason, description, cancelled_by)`
(src/models/Appointment.cpp:43-52): sets status to CANCELLED and fills the
reason, description, cancellation time and canceller of `cancellation_info_`;
the refund fields of `cancellation_info_` are left untouched. -/
def cancelAppointment (reason : CancellationReason) (description cancelled_by : String)
    (now : Int) (a : Appointment) : Appointment :=
  updateTimestamp now
    { a with status := .CANCELLED,
             cancellation_info :=
               { a.cancellation_info with
                   reason := reason,
                   description := description,
                   cancelled_at := now,
                   cancelled_by_user_id := cancelled_by } }

/-- `Appointment::markNoShow()` (src/models/Appointment.cpp:54-57):
unconditionally sets status to NO_SHOW. -/
def markNoShow (now : Int) (a : Appointment) : Appointment :=
  updateTimestamp now { a with status := .NO_SHOW }

/-- `Appointment::rescheduleAppointment(new_start_time)` (src/models/Appointment.cpp:59-68).
The C++ body assigns `start_time_ = new_start_time` first and only afterwards
computes `duration = end_time_ - start_time_`, so the duration is measured
against the already-updated start time; the sequencing is reproduced faithfully. -/
def rescheduleAppointment (now new_start_time : Int) (a : Appointment) : Appointment :=
  let a1 := { a with status := AppointmentStatus.RESCHEDULED, start_time := new_start_time }
  let duration := a1.end_time - a1.start_time
  updateTimestamp now { a1 with end_time := new_start_time + duration }

/-- `Appointment::processRefund(refund_amount, refund_id)` (src/models/Appointment.cpp:80-86):
unconditionally stores the refund amount and id, marks the refund processed and
sets the payment status to REFUNDED. -/
def processRefund (refund_amount : Int) (refund_id : String) (now : Int)
    (a : Appointment) : Appointment :=
  updateTimestamp now
    { a with cancellation_info :=
               { a.cancellation_info with
                   refund_amount := refund_amount,
                   refund_id := refund_id,
                   is_refund_processed := true },
             payment_info := { a.payment_info with status := .REFUNDED } }

/-- `Appointment::canBeCancelled()` (src/models/Appointment.cpp:116-129). -/
def canBeCancelled (now : Int) (a : Appointment) : Bool :=
  if a.status = .COMPLETED ∨ a.status = .CANCELLED ∨ a.status = .NO_SHOW then
    false
  else if a.start_time < now then
    false
  else
    true

/-- `Appointment::canBeRescheduled()` (src/models/Appointment.cpp:131-144):
`duration_cast<hours>(start_time_ - now).count() >= 2`, where the cast
truncates toward zero (`Int.tdiv` by 3600 on seconds). -/
def canBeRescheduled (now : Int) (a : Appointment) : Bool :=
  if a.status = .COMPLETED ∨ a.status = .CANCELLED ∨ a.status = .NO_SHOW ∨
      a.status = .IN_PROGRESS then
    false
  else
    2 ≤ (a.start_time - now).tdiv 3600

/-- `Appointment::requiresRefund()` (src/models/Appointment.cpp:146-150). -/
def requiresRefund (a : Appointment) : Bool :=
  a.status = .CANCELLED ∧ a.payment_info.status = .PAID ∧
    a.cancellation_info.is_refund_processed = false

/-- `Appointment::getDurationMinutes()` (src/models/Appointment.cpp:152-155):
`duration_cast<minutes>(end_time_ - start_time_)`, truncating toward zero. -/
def getDurationMinutes (a : Appointment) : Int :=
  (a.end_time - a.start_time).tdiv 60

/-- `Appointment::isValidTimeSlot()` (src/models/Appointment.cpp:184-186). -/
def isValidTimeSlot (a : Appointment) : Bool :=
  a.start_time < a.end_time ∧ 15 ≤ getDurationMinutes a

/-- `appointmentStatusToString` (src/models/Appointment.cpp:393-404). -/
def appointmentStatusToString : AppointmentStatus → String
  | .PENDING => "PENDING"
  | .CONFIRMED => "CONFIRMED"
  | .IN_PROGRESS => "IN_PROGRESS"
  | .COMPLETED => "COMPLETED"
  | .CANCELLED => "CANCELLED"
  | .NO_SHOW => "NO_SHOW"
  | .RESCHEDULED => "RESCHEDULED"

/-- `stringToAppointmentStatus` (src/models/Appointment.cpp:406-414):
an if-chain over the six non-default names, defaulting to PENDING. -/
def stringToAppointmentStatus (status_str : String) : AppointmentStatus :=
  if status_str = "CONFIRMED" then .CONFIRMED
  else if status_str = "IN_PROGRESS" then .IN_PROGRESS
  else if status_str = "COMPLETED" then .COMPLETED
  else if status_str = "CANCELLED" then .CANCELLED
  else if status_str = "NO_SHOW" then .NO_SHOW
  else if status_str = "RESCHEDULED" then .RESCHEDULED
  else .PENDING

/-- `enum class ClinicStatus` (include/models/Clinic.h). -/
inductive ClinicStatus where
  | ACTIVE
  | INACTIVE
  | PENDING_VERIFICATION
  | SUSPENDED
deriving DecidableEq

/-- `struct WorkingHours` (include/models/Clinic.h): per-day open window and
optional break window, all times as "HH:MM" strings. -/
structure WorkingHours where
  day_of_week : String
  start_time : String
  end_time : String
  is_closed : Bool
  break_start : String
  break_end : String
deriving DecidableEq

/-- `class Clinic` (include/models/Clinic.h), restricted to the members read by
`Clinic::isOpenAt` and the booking rules: verification status and working hours.
The remaining members (name, address, facilities, ratings, ...) are never read
by the operations settled here. -/
structure Clinic where
  status : ClinicStatus
  working_hours : List WorkingHours
deriving DecidableEq

/-- The `std::tm` decomposition of a `time_point` that `Clinic.cpp` extracts via
`std::localtime`: the weekday name (as produced by the `days[tm_wday]` table) and
the zero-padded "HH:MM" time-of-day string the code formats from `tm_hour`/`tm_min`. -/
structure LocalTime where
  day_of_week : String
  hhmm : String
deriving DecidableEq

/-- `getCurrentDayOfWeek()` (src/models/Clinic.cpp:353-360): takes no argument in
C++ and reads `system_clock::now()`; the current wall-clock decomposition is the
explicit argument here. -/
def getCurrentDayOfWeek (now : LocalTime) : String :=
  now.day_of_week

/-- Lexicographic `operator<=` of `std::string`, element by element; on the
ASCII "HH:MM" strings compared by `Clinic.cpp` the byte order and the character
order coincide. -/
def lexLe : List Char → List Char → Bool
  | [], _ => true
  | _ :: _, [] => false
  | a :: as, b :: bs =>
    if a < b then true
    else if a = b then lexLe as bs
    else false

/-- `isTimeInRange(current, start, end)` (src/models/Clinic.cpp:362-364):
`current >= start && current <= end`, lexicographic comparison of "HH:MM" strings
(inclusive at both endpoints). -/
def isTimeInRange (current_time start_time end_time : String) : Bool :=
  lexLe start_time.data current_time.data && lexLe current_time.data end_time.data

/-- The `for (const auto& hours : working_hours_)` loop body of `Clinic::isOpenAt`
(src/models/Clinic.cpp:33-47): first entry matching the day and not closed whose
open window contains the time decides the result (false when inside the break
window, true otherwise); entries that match the day but miss the window are
skipped and the scan continues. -/
def isOpenAtLoop (day current : String) : List WorkingHours → Bool
  | [] => false
  | hours :: rest =>
    if hours.day_of_week = day ∧ hours.is_closed = false then
      if isTimeInRange current hours.start_time hours.end_time then
        if hours.break_start ≠ "" ∧ hours.break_end ≠ "" then
          if isTimeInRange current hours.break_start hours.break_end then
            false
          else
            true
        else
          true
      else
        isOpenAtLoop day current rest
    else
      isOpenAtLoop day current rest

/-- `Clinic::isOpenAt(time)` (src/models/Clinic.cpp:23-48).  The C++ body formats
the "HH:MM" string from the decomposition of the `time` argument, but obtains the
weekday via `getCurrentDayOfWeek()`, which reads `system_clock::now()` — so the
weekday used is that of the current wall-clock time, not of `time`.  Both
decompositions are therefore parameters here. -/
def isOpenAt (c : Clinic) (t : LocalTime) (now : LocalTime) : Bool :=
  isOpenAtLoop (getCurrentDayOfWeek now) t.hhmm c.working_hours

/-- Modelled from the spec: the repository snapshot contains only the
declarations of `BookingService::hasTimeConflict`
(include/services/BookingService.h:183-186) and
`AppointmentRepository::isTimeSlotAvailable`
(include/database/AppointmentRepository.h:23-25); the defining `.cpp` files for
both classes are absent from the source tree.  Following the spec's words: query
existing non-cancelled appointments for this doctor whose `[start,end)` interval
overlaps `[requestedStart, requestedEnd)` using the half-open overlap test
`existing.start < requestedEnd AND existing.end > requestedStart`, excluding the
appointment being rescheduled. -/
def hasTimeConflict (appointments : List Appointment) (doctor_id : String)
    (req_start req_end : Int) (exclude_id : String) : Bool :=
  appointments.any fun a =>
    a.doctor_id = doctor_id ∧ a.status ≠ AppointmentStatus.CANCELLED ∧
      a.id ≠ exclude_id ∧ a.start_time < req_end ∧ a.end_time > req_start

/-! ### Concrete fixtures used by the closed theorems below -/

/-- A concrete well-formed appointment (30-minute slot starting at epoch second 0,
PENDING, payment pending), used as the base state of the concrete evaluations. -/
def baseAppointment : Appointment where
  id := "apt1"
  created_at := 0
  updated_at := 0
  is_deleted := false
  user_id := "user1"
  doctor_id := "doc1"
  clinic_id := "clinic1"
  appointment_date := 0
  start_time := 0
  end_time := 1800
  type := .OFFLINE
  status := .PENDING
  symptoms := "fever"
  notes := ""
  is_emergency := false
  patient_age := "30"
  patient_gender := "F"
  consultation_fee := 500
  payment_info :=
    { payment_id := "", order_id := "", transaction_id := "", amount := 500,
      currency := "INR", status := .PENDING, payment_method := "", paid_at := 0,
      razorpay_signature := "" }
  confirmation_code := "APT123456"
  booked_at := 0
  confirmed_at := 0
  consultation_info :=
    { video_call_link := "", meeting_id := "", room_password := "",
      call_started_at := 0, call_ended_at := 0, duration_minutes := 0,
      recording_url := "", call_notes := "" }
  cancellation_info :=
    { reason := .OTHER, description := "", cancelled_at := 0,
      cancelled_by_user_id := "", refund_amount := 0, refund_id := "",
      is_refund_processed := false }
  prescription_id := ""
  follow_up_date := 0
  follow_up_notes := ""

/-- The base appointment rescheduled to start at second 3600 (call made at time 5). -/
def c1_rescheduled : Appointment :=
  rescheduleAppointment 5 3600 baseAppointment

/-- The base appointment in terminal state COMPLETED. -/
def c2_completed : Appointment :=
  { baseAppointment with status := .COMPLETED }

/-- An appointment of the same doctor ending exactly at second 0 (back-to-back
with a request starting at 0). -/
def c3_backToBack : Appointment :=
  { baseAppointment with id := "apt0", start_time := -1800, end_time := 0 }

/-- A PENDING appointment whose start time is exactly the instant 1000. -/
def c4_at_start : Appointment :=
  { baseAppointment with status := .PENDING, start_time := 1000, end_time := 2800 }

/-- A PENDING appointment starting 90 minutes (5400 s) after instant 0. -/
def c5_in90 : Appointment :=
  { baseAppointment with status := .PENDING, start_time := 5400, end_time := 7200 }

/-- A PENDING appointment starting exactly 120 minutes (7200 s) after instant 0. -/
def c5_in120 : Appointment :=
  { baseAppointment with status := .PENDING, start_time := 7200, end_time := 9000 }

/-- A cancelled, paid appointment refunded once: `processRefund(100, "r1")` at time 10. -/
def c6_first : Appointment :=
  processRefund 100 "r1" 10 { baseAppointment with status := .CANCELLED }

/-- The same appointment refunded a second time with a different amount and id. -/
def c6_second : Appointment :=
  processRefund 50 "r2" 20 c6_first

/-- An appointment on which `processRefund` ran before `cancelAppointment`. -/
def c7_refunded_then_cancelled : Appointment :=
  cancelAppointment .PATIENT_REQUEST "changed plans" "user1" 50
    (processRefund 100 "r1" 10 baseAppointment)

/-- A clinic open Mondays 09:00-17:00 with a 13:00-14:00 break. -/
def c8_clinic : Clinic where
  status := .ACTIVE
  working_hours :=
    [{ day_of_week := "MONDAY", start_time := "09:00", end_time := "17:00",
       is_closed := false, break_start := "13:00", break_end := "14:00" }]

/-! ### Helper lemmas -/

/-- Truncating division by a positive constant, compared against a positive
bound: `q ≤ d.tdiv b ↔ q * b ≤ d`.  This is how `duration_cast` thresholds
behave on `system_clock` durations. -/
theorem le_tdiv_iff_of_pos {d b q : Int} (hb : 0 < b) (hq : 0 < q) :
    q ≤ d.tdiv b ↔ q * b ≤ d := by
  rcases le_or_lt 0 d with hd | hd
  · rw [Int.tdiv_eq_ediv hd hb.le, Int.le_ediv_iff_mul_le hb]
  · constructor
    · intro h
      have h2 : 0 ≤ (-d).tdiv b := Int.tdiv_nonneg (by omega) hb.le
      have h3 : (-d).tdiv b = -(d.tdiv b) := Int.neg_tdiv d b
      omega
    · intro h
      have hqb : 0 < q * b := mul_pos hq hb
      linarith

/-! ### Claim theorems -/

/-- C1: the spec claims `rescheduleAppointment(newStart)` preserves the duration
`endTime - startTime` by shifting `endTime` by the same delta as `startTime`.
The code computes the duration only after overwriting `start_time_`, so
`end_time_` is in fact left unchanged: rescheduling the 30-minute appointment
`[0, 1800)` to start at 3600 yields `start_time = 3600` and `end_time = 1800`,
a "duration" of -1800 instead of 1800, contradicting the code's own comment
"Calculate new end time based on duration". -/
theorem c1_reschedule_loses_duration :
    baseAppointment.end_time - baseAppointment.start_time = 1800 ∧
    c1_rescheduled.start_time = 3600 ∧
    c1_rescheduled.end_time = 1800 ∧
    c1_rescheduled.end_time - c1_rescheduled.start_time ≠ 1800 := by
  decide

/-- C2: the spec claims every illegal (status, operation) pair fails with an
`InvalidStateTransition` error and leaves the appointment unchanged.  The code
has no such error anywhere; the transition methods are unconditional: from the
terminal state COMPLETED, `confirmAppointment` silently yields CONFIRMED and
`startConsultation` silently yields IN_PROGRESS, and `markNoShow` applies even
though the appointment's start time (200) has not yet passed at call time (100). -/
theorem c2_transitions_not_guarded :
    (confirmAppointment 100 c2_completed).status = .CONFIRMED ∧
    (startConsultation 100 c2_completed).status = .IN_PROGRESS ∧
    (markNoShow 100
      { baseAppointment with start_time := 200, end_time := 2000 }).status = .NO_SHOW := by
  decide

/-- C6: the spec claims that once `refundProcessed` is true a second
`processRefund` call is a no-op (or fails) and does not change the stored refund
amount or id.  The code stores unconditionally: after a first refund of 100 with
id "r1", a second call with (50, "r2") overwrites both fields, recording a
different refund. -/
theorem c6_processRefund_overwrites :
    c6_first.cancellation_info.is_refund_processed = true ∧
    c6_first.cancellation_info.refund_amount = 100 ∧
    c6_first.cancellation_info.refund_id = "r1" ∧
    c6_first.payment_info.status = .REFUNDED ∧
    c6_second.cancellation_info.refund_amount = 50 ∧
    c6_second.cancellation_info.refund_id = "r2" := by
  decide

/-- C3: the conflict check flags a requested slot `[req_start, req_end)` for a
doctor exactly when some existing appointment of that doctor that is not
cancelled and is not the appointment being rescheduled satisfies the half-open
overlap test `existing.start < requestedEnd AND existing.end > requestedStart`;
and intervals that merely touch (one's end equal to or before the other's start)
never satisfy that test, so back-to-back slots do not conflict. -/
theorem c3_hasTimeConflict_iff (appointments : List Appointment) (doctor_id : String)
    (req_start req_end : Int) (exclude_id : String) :
    (hasTimeConflict appointments doctor_id req_start req_end exclude_id = true ↔
      ∃ a ∈ appointments, a.doctor_id = doctor_id ∧
        a.status ≠ AppointmentStatus.CANCELLED ∧ a.id ≠ exclude_id ∧
        a.start_time < req_end ∧ a.end_time > req_start) ∧
    ∀ a : Appointment, a.end_time ≤ req_start ∨ req_end ≤ a.start_time →
      ¬(a.start_time < req_end ∧ a.end_time > req_start) := by
  constructor
  · simp [hasTimeConflict, List.any_eq_true]
  · rintro a h ⟨h1, h2⟩
    omega

/-- Witness for C3: the back-to-back appointment ending exactly at the requested
start does not satisfy the overlap test. -/
theorem c3_hasTimeConflict_iff_witness :
    ¬(c3_backToBack.start_time < (1800 : Int) ∧ c3_backToBack.end_time > (0 : Int)) :=
  (c3_hasTimeConflict_iff [c3_backToBack] "doc1" 0 1800 "").2 c3_backToBack
    (Or.inl (by decide))

/-- C4 counterexample: the claim says that at the instant `now = startTime` the
appointment can no longer be cancelled; the code only rejects strictly past
start times (`start_time_ < now`), so a PENDING appointment whose start time is
exactly the current instant 1000 still reports it can be cancelled. -/
theorem c4_counterexample :
    canBeCancelled 1000 c4_at_start = true ∧ ¬(1000 < c4_at_start.start_time) := by
  decide

/-- C4 amended: `canBeCancelled()` returns true iff the status is not in
{COMPLETED, CANCELLED, NO_SHOW} and `now ≤ startTime` — the boundary instant
`now = startTime` still allows cancellation; only once `now > startTime` does it
become (and remain) false. -/
theorem c4_canBeCancelled_iff (now : Int) (a : Appointment) :
    canBeCancelled now a = true ↔
      a.status ≠ .COMPLETED ∧ a.status ≠ .CANCELLED ∧ a.status ≠ .NO_SHOW ∧
        now ≤ a.start_time := by
  unfold canBeCancelled
  split_ifs with h1 h2
  · simp only [Bool.false_eq_true, false_iff]
    rintro ⟨n1, n2, n3, -⟩
    tauto
  · simp only [Bool.false_eq_true, false_iff]
    rintro ⟨-, -, -, h4⟩
    omega
  · simp only [true_iff]
    push_neg at h1
    exact ⟨h1.1, h1.2.1, h1.2.2, by omega⟩

/-- C5: `canBeRescheduled()` returns true iff the status is not in
{COMPLETED, CANCELLED, NO_SHOW, IN_PROGRESS} and at least 120 minutes (7200 s)
remain before the current start time; concretely, an appointment starting in 90
minutes cannot be rescheduled, one starting in exactly 120 minutes can. -/
theorem c5_canBeRescheduled_iff (now : Int) (a : Appointment) :
    (canBeRescheduled now a = true ↔
      a.status ≠ .COMPLETED ∧ a.status ≠ .CANCELLED ∧ a.status ≠ .NO_SHOW ∧
        a.status ≠ .IN_PROGRESS ∧ 7200 ≤ a.start_time - now) ∧
    canBeRescheduled 0 c5_in90 = false ∧
    canBeRescheduled 0 c5_in120 = true := by
  refine ⟨?_, by decide, by decide⟩
  unfold canBeRescheduled
  split_ifs with h1
  · simp only [Bool.false_eq_true, false_iff]
    rintro ⟨n1, n2, n3, n4, -⟩
    tauto
  · push_neg at h1
    rw [decide_eq_true_iff]
    rw [le_tdiv_iff_of_pos (by norm_num) (by norm_num)]
    constructor
    · intro h
      exact ⟨h1.1, h1.2.1, h1.2.2.1, h1.2.2.2, by omega⟩
    · rintro ⟨-, -, -, -, h5⟩
      omega

/-- C7 counterexample: the claim says `cancelAppointment` always leaves
`cancellationInfo.is_refund_processed = false`.  `cancelAppointment` does not
write that flag at all: on an appointment on which `processRefund` had already
run, the flag is true both before and after the cancellation. -/
theorem c7_counterexample :
    c7_refunded_then_cancelled.status = .CANCELLED ∧
    c7_refunded_then_cancelled.cancellation_info.reason = .PATIENT_REQUEST ∧
    c7_refunded_then_cancelled.cancellation_info.is_refund_processed = true := by
  decide

/-- C7 amended: `cancelAppointment(reason, description, cancelledBy)` sets the
status to CANCELLED and records the given reason, description, canceller id and
the cancellation timestamp; it leaves `is_refund_processed` unchanged, so
whenever the refund had not been processed before the call (the normal path) the
flag is still false afterwards and the refund can be retried later without
redoing the cancellation. -/
theorem c7_cancel_fields (reason : CancellationReason)
    (description cancelled_by : String) (now : Int) (a : Appointment)
    (h : a.cancellation_info.is_refund_processed = false) :
    (cancelAppointment reason description cancelled_by now a).status = .CANCELLED ∧
    (cancelAppointment reason description cancelled_by now a).cancellation_info.reason
      = reason ∧
    (cancelAppointment reason description cancelled_by now a).cancellation_info.description
      = description ∧
    (cancelAppointment reason description cancelled_by now a).cancellation_info.cancelled_at
      = now ∧
    (cancelAppointment reason description cancelled_by now
      a).cancellation_info.cancelled_by_user_id = cancelled_by ∧
    (cancelAppointment reason description cancelled_by now
      a).cancellation_info.is_refund_processed = false := by
  refine ⟨rfl, rfl, rfl, rfl, rfl, ?_⟩
  simpa [cancelAppointment, updateTimestamp] using h

/-- Witness for C7 amended: cancelling the (not yet refunded) base appointment. -/
theorem c7_cancel_fields_witness :
    (cancelAppointment .OTHER "late" "user1" 7 baseAppointment).status = .CANCELLED ∧
    (cancelAppointment .OTHER "late" "user1" 7 baseAppointment).cancellation_info.reason
      = .OTHER ∧
    (cancelAppointment .OTHER "late" "user1" 7 baseAppointment).cancellation_info.description
      = "late" ∧
    (cancelAppointment .OTHER "late" "user1" 7 baseAppointment).cancellation_info.cancelled_at
      = 7 ∧
    (cancelAppointment .OTHER "late" "user1" 7
      baseAppointment).cancellation_info.cancelled_by_user_id = "user1" ∧
    (cancelAppointment .OTHER "late" "user1" 7
      baseAppointment).cancellation_info.is_refund_processed = false :=
  c7_cancel_fields .OTHER "late" "user1" 7 baseAppointment (by decide)

/-- C8: the claim says `Clinic::isOpenAt(t)` consults the working-hours entry
for the day of week of `t`.  The code formats the hour/minute from `t` but takes
the weekday from the current wall-clock time via `getCurrentDayOfWeek()`.  For a
clinic open Mondays 09:00-17:00, the request (Monday 10:00) is reported closed
when the call happens on a Sunday, open when the call happens on the Monday, and
the 13:00-14:00 break of the requested time is honoured — so the weekday comes
from `now` while the time-of-day comes from `t`. -/
theorem c8_isOpenAt_uses_now_weekday :
    isOpenAt c8_clinic ⟨"MONDAY", "10:00"⟩ ⟨"SUNDAY", "23:00"⟩ = false ∧
    isOpenAt c8_clinic ⟨"MONDAY", "10:00"⟩ ⟨"MONDAY", "10:00"⟩ = true ∧
    isOpenAt c8_clinic ⟨"MONDAY", "13:30"⟩ ⟨"MONDAY", "13:30"⟩ = false := by
  decide

/-- C9: `isValidTimeSlot()` holds iff the start time is strictly before the end
time and the duration is at least 15 minutes (900 seconds); the truncating
minute cast makes `getDurationMinutes() >= 15` equivalent to a 900-second bound. -/
theorem c9_isValidTimeSlot_iff (a : Appointment) :
    isValidTimeSlot a = true ↔
      a.start_time < a.end_time ∧ 900 ≤ a.end_time - a.start_time := by
  unfold isValidTimeSlot getDurationMinutes
  rw [decide_eq_true_iff]
  rw [le_tdiv_iff_of_pos (by norm_num) (by norm_num)]
  constructor
  · rintro ⟨h1, h2⟩
    exact ⟨h1, by omega⟩
  · rintro ⟨h1, h2⟩
    exact ⟨h1, by omega⟩

/-- C10: serializing any of the seven appointment statuses and parsing the
result gives the status back, and parsing any string other than the seven known
status names (the empty string included) silently yields PENDING. -/
theorem c10_status_roundtrip :
    (∀ s : AppointmentStatus,
      stringToAppointmentStatus (appointmentStatusToString s) = s) ∧
    ∀ status_str : String, status_str ≠ "PENDING" → status_str ≠ "CONFIRMED" →
      status_str ≠ "IN_PROGRESS" → status_str ≠ "COMPLETED" →
      status_str ≠ "CANCELLED" → status_str ≠ "NO_SHOW" →
      status_str ≠ "RESCHEDULED" →
      stringToAppointmentStatus status_str = .PENDING := by
  constructor
  · intro s
    cases s <;> rfl
  · intro status_str h1 h2 h3 h4 h5 h6 h7
    unfold stringToAppointmentStatus
    rw [if_neg h2, if_neg h3, if_neg h4, if_neg h5, if_neg h6, if_neg h7]

/-- Witness for C10: an unrecognized status string parses to PENDING. -/
theorem c10_status_roundtrip_witness :
    stringToAppointmentStatus "UNKNOWN" = .PENDING :=
  c10_status_roundtrip.2 "UNKNOWN" (by decide) (by decide) (by decide) (by decide)
    (by decide) (by decide) (by decide)

end RuralDoc
